import Mathlib

/-!
Shallow embedding of the storefront backend (`src/main.py`): the order
pricing engine (`create_order`), the catalog listing with first-run
seeding (`list_products`, `SEED_PRODUCTS`), and document normalization
(`serialize_doc`).

Numeric model: Python floats are idealized as exact rationals (`ℚ`);
Python's `round(x, 2)` is modelled as round-half-to-even at two decimal
digits (`round2`).

The storage collaborator (`database.py`: `db`, `create_document`,
`get_documents`) and the pydantic schemas (`schemas.py`) are not under
`src/`; they are modelled from the spec's collaborator contract
(`count`, `insert` with store-assigned identifier, `find` with limit).
-/

namespace Storefront

/-- A JSON-ish value stored in a document field (Python dict values as
they occur in this program: strings, ints, floats-as-rationals, bools,
null, and Mongo ObjectIds). -/
inductive Value where
  | vNull : Value
  | vStr : String → Value
  | vInt : ℤ → Value
  | vFloat : ℚ → Value
  | vBool : Bool → Value
  | vOid : ℕ → Value
deriving DecidableEq, Repr

/-- A document is a Python dict: an insertion-ordered association list
from field names to values, with at most one binding per key. -/
abbrev Doc : Type := List (String × Value)

/-- Dict lookup `d[k]` / `k in d`. -/
def Doc.lookup (d : Doc) (k : String) : Option Value :=
  List.lookup k d

/-- Dict deletion `d.pop(k)` (the removal part): drops the binding of
`k`, keeping every other binding in order. -/
def Doc.erase : Doc → String → Doc
  | [], _ => []
  | kv :: t, k => if kv.1 = k then Doc.erase t k else kv :: Doc.erase t k

/-- Dict assignment `d[k] = v`: replaces the binding in place when the
key exists, otherwise appends at the end (Python insertion-order
semantics). -/
def Doc.insert : Doc → String → Value → Doc
  | [], k, v => [(k, v)]
  | kv :: t, k, v => if kv.1 = k then (k, v) :: t else kv :: Doc.insert t k v

/-- Stringification (`str()`) applied to a store-assigned identifier (`str(ObjectId)`),
modelled as the decimal string of the numeric identifier. -/
def oidStr (n : ℕ) : String := toString n

/-- Python `str(v)` on the values this program stringifies. -/
def Value.pyStr : Value → String
  | .vNull => "None"
  | .vStr s => s
  | .vInt n => toString n
  | .vFloat q => toString q
  | .vBool b => if b then "True" else "False"
  | .vOid n => oidStr n

/-- Test that `v` is a Python numeric value (so `float(v)` succeeds). -/
def Value.isNumeric : Value → Bool
  | .vInt _ => true
  | .vFloat _ => true
  | .vBool _ => true
  | _ => false

/-- Python `float(v)` on numeric values (identity elsewhere, a case the
program never exercises on ratings). -/
def Value.pyFloat : Value → Value
  | .vInt n => .vFloat (n : ℚ)
  | .vFloat q => .vFloat q
  | .vBool b => .vFloat (if b then 1 else 0)
  | v => v

/-- Round-half-to-even to an integer (Python's `round` tie behavior). -/
def rhe (q : ℚ) : ℤ :=
  let f := ⌊q⌋
  let frac := q - (f : ℚ)
  if frac < 1/2 then f
  else if 1/2 < frac then f + 1
  else if f % 2 = 0 then f else f + 1

/-- Python `round(x, 2)` on the rational model: round-half-to-even at
two decimal digits. -/
def round2 (q : ℚ) : ℚ := (rhe (q * 100) : ℚ) / 100

/-- Embedding of `schemas.OrderItem`. Modelled from the spec: `schemas.py` is not
under `src/`; fields follow the external interface
`{product: string, price: number, quantity: integer}`. -/
structure OrderItem where
  product : String
  price : ℚ
  quantity : ℤ
deriving DecidableEq, Repr

/-- Embedding of `schemas.Order`. Modelled from the spec: a sequence of `OrderItem`
and an optional shipping value. -/
structure Order where
  items : List OrderItem
  shipping : Option ℚ
deriving DecidableEq, Repr

/-- Embedding of `schemas.Product`. Modelled from the spec: the product fields used
by the seed data in `src/main.py`. -/
structure ProductSchema where
  title : String
  description : Option String
  price : ℚ
  category : String
  in_stock : Bool
  image : Option String
  rating : Option ℚ
deriving DecidableEq, Repr

/-- Dump (`model_dump`) of a `ProductSchema` into a document (optional fields
present as null when absent, as pydantic dumps them). -/
def ProductSchema.toDoc (p : ProductSchema) : Doc :=
  [ ("title", .vStr p.title),
    ("description", (p.description.map Value.vStr).getD .vNull),
    ("price", .vFloat p.price),
    ("category", .vStr p.category),
    ("in_stock", .vBool p.in_stock),
    ("image", (p.image.map Value.vStr).getD .vNull),
    ("rating", (p.rating.map Value.vFloat).getD .vNull) ]

/-- The persisted order record: `order.model_dump()` enriched with the
three derived pricing fields (`src/main.py` lines 164–167). -/
structure OrderDoc where
  items : List OrderItem
  shippingIn : Option ℚ
  subtotal : ℚ
  shipping : ℚ
  total : ℚ
deriving DecidableEq, Repr

/-- The document store. Modelled from the spec: the sole durable owner
of Product and Order records, assigning a fresh identifier on insert. -/
structure Store where
  products : List Doc
  orders : List OrderDoc
  nextId : ℕ
deriving DecidableEq, Repr

/-- Modelled from the spec: `database.create_document("product", p)` —
insert one product document; the store assigns a unique identifier,
placed in the `_id` field. -/
def Store.insertProduct (s : Store) (d : Doc) : Store × ℕ :=
  ({ s with
      products := s.products ++ [Doc.insert d "_id" (.vOid s.nextId)],
      nextId := s.nextId + 1 },
   s.nextId)

/-- Modelled from the spec: `database.create_document("order", doc)` —
insert one order document; the store assigns a unique identifier. -/
def Store.insertOrder (s : Store) (d : OrderDoc) : Store × ℕ :=
  ({ s with orders := s.orders ++ [d], nextId := s.nextId + 1 },
   s.nextId)

/-- Modelled from the spec: `db["product"].count_documents({})`. -/
def Store.productCount (s : Store) : ℕ := s.products.length

/-- Modelled from the spec: `database.get_documents("product", {},
limit=limit)` — fetch up to `limit` product documents in store order. -/
def Store.findProducts (s : Store) (limit : ℕ) : List Doc :=
  s.products.take limit

/-- Embedding of `serialize_doc` (`src/main.py` lines 88–95): copy the dict; if the
store-assigned `_id` field is present, pop it and set `id` to its
stringified value; coerce a present non-null `rating` to float. -/
def serialize_doc (doc : Doc) : Doc :=
  let d := doc
  let d :=
    match d.lookup "_id" with
    | some v => (d.erase "_id").insert "id" (.vStr v.pyStr)
    | none => d
  match d.lookup "rating" with
  | some v => if v ≠ .vNull then d.insert "rating" v.pyFloat else d
  | none => d

/-- The fixed first-run seed catalog (`src/main.py` lines 99–136). -/
def SEED_PRODUCTS : List ProductSchema :=
  [ { title := "AeroMesh Sneakers",
      description := some "Breathable, lightweight trainers for all-day comfort",
      price := 129,
      category := "shoes",
      in_stock := true,
      image := some "https://images.unsplash.com/photo-1542291026-7eec264c27ff?q=80&w=1200&auto=format&fit=crop",
      rating := some (47/10) },
    { title := "Minimalist Backpack",
      description := some "Slim, water-resistant pack with padded laptop sleeve",
      price := 89,
      category := "bags",
      in_stock := true,
      image := some "https://images.unsplash.com/photo-1517433670267-08bbd4be890f?q=80&w=1200&auto=format&fit=crop",
      rating := some (46/10) },
    { title := "Supima Tee",
      description := some "Ultra-soft premium cotton crew neck",
      price := 39,
      category := "apparel",
      in_stock := true,
      image := some "https://images.unsplash.com/photo-1512436991641-6745cdb1723f?q=80&w=1200&auto=format&fit=crop",
      rating := some (46/10) },
    { title := "Smartwatch Pro",
      description := some "Fitness + notifications with 7-day battery",
      price := 199,
      category := "wearables",
      in_stock := true,
      image := some "https://images.unsplash.com/photo-1524805444758-089113d48a6d?q=80&w=1200&auto=format&fit=crop",
      rating := some (45/10) } ]

/-- The seeding loop of `list_products`: insert every seed product, in
order, one document per item (`src/main.py` lines 147–148). -/
def seedStore (s : Store) : Store :=
  SEED_PRODUCTS.foldl (fun st p => (st.insertProduct p.toDoc).1) s

/-- Embedding of `list_products` (`src/main.py` lines 140–151): fail with a 500
server error when the store is not configured; seed when the product
count is zero; fetch up to `limit` documents and normalize each.
Returns the updated store together with the response documents. -/
def list_products (db : Option Store) (limit : ℕ) :
    Except ℕ (Store × List Doc) :=
  match db with
  | none => .error 500
  | some s =>
    let count := s.productCount
    let s := if count = 0 then seedStore s else s
    let docs := s.findProducts limit
    .ok (s, docs.map serialize_doc)

/-- The subtotal accumulation of `create_order` (`src/main.py` line
160): Python's `sum(item.price * item.quantity for item in items)`. -/
def orderSubtotal (items : List OrderItem) : ℚ :=
  items.foldl (fun acc it => acc + it.price * (it.quantity : ℚ)) 0

/-- The effective shipping of `create_order` (`src/main.py` line 161):
`max(0.0, float(order.shipping)) if order.shipping is not None else
0.0`. -/
def effShipping (shipping : Option ℚ) : ℚ :=
  match shipping with
  | some v => max 0 v
  | none => 0

/-- Embedding of `create_order` (`src/main.py` lines 155–170): fail with a 500
server error when the store is not configured; compute subtotal,
clamped shipping and rounded total; persist the enriched order record;
return the store-assigned identifier (stringified) and the total. -/
def create_order (db : Option Store) (order : Order) :
    Except ℕ (Store × String × ℚ) :=
  match db with
  | none => .error 500
  | some s =>
    let subtotal := orderSubtotal order.items
    let shipping := effShipping order.shipping
    let total := round2 (subtotal + shipping)
    let order_doc : OrderDoc :=
      { items := order.items,
        shippingIn := order.shipping,
        subtotal := round2 subtotal,
        shipping := round2 shipping,
        total := total }
    let (s, new_id) := s.insertOrder order_doc
    .ok (s, oidStr new_id, total)

/-! ### Dictionary lemmas -/

/-- Lookup on a cons cell compares the keys. -/
theorem lookup_cons (k a : String) (v : Value) (t : Doc) :
    Doc.lookup ((a, v) :: t) k = if k = a then some v else Doc.lookup t k := by
  by_cases h : k = a
  · subst h
    simp [Doc.lookup, List.lookup]
  · have hb : (k == a) = false := beq_eq_false_iff_ne.mpr h
    simp [Doc.lookup, List.lookup, hb, h]

/-- Lookup after deletion: the deleted key is gone, others unchanged. -/
theorem lookup_erase (d : Doc) (k k' : String) :
    Doc.lookup (Doc.erase d k) k' = if k' = k then none else Doc.lookup d k' := by
  induction d with
  | nil =>
    by_cases h : k' = k <;> simp [Doc.erase, Doc.lookup, List.lookup, h]
  | cons kv t ih =>
    rcases kv with ⟨a, v⟩
    by_cases hak : a = k
    · subst hak
      rw [show Doc.erase ((a, v) :: t) a = Doc.erase t a from by simp [Doc.erase]]
      rw [ih]
      by_cases h : k' = a
      · simp [h]
      · simp [h, lookup_cons]
    · rw [show Doc.erase ((a, v) :: t) k = (a, v) :: Doc.erase t k from by
        simp [Doc.erase, hak]]
      rw [lookup_cons, ih, lookup_cons]
      by_cases h : k' = a
      · have hkk : ¬ k' = k := by rw [h]; exact hak
        simp [h, hkk, hak]
      · simp [h]

/-- Lookup after assignment: the assigned key maps to the new value,
others unchanged. -/
theorem lookup_insert (d : Doc) (k k' : String) (v : Value) :
    Doc.lookup (Doc.insert d k v) k' = if k' = k then some v else Doc.lookup d k' := by
  induction d with
  | nil =>
    show Doc.lookup [(k, v)] k' = _
    rw [lookup_cons]
  | cons kv t ih =>
    rcases kv with ⟨a, w⟩
    by_cases hak : a = k
    · subst hak
      rw [show Doc.insert ((a, w) :: t) a v = (a, v) :: t from by simp [Doc.insert]]
      rw [lookup_cons, lookup_cons]
      by_cases h : k' = a <;> simp [h]
    · rw [show Doc.insert ((a, w) :: t) k v = (a, w) :: Doc.insert t k v from by
        simp [Doc.insert, hak]]
      rw [lookup_cons, ih, lookup_cons]
      by_cases h : k' = a
      · have hkk : ¬ k' = k := by rw [h]; exact hak
        simp [h, hkk, hak]
      · simp [h]

/-! ### Subtotal lemmas -/

/-- Folding the subtotal accumulator from any seed adds the mapped sum. -/
theorem foldl_price_qty (l : List OrderItem) :
    ∀ a : ℚ, l.foldl (fun acc it => acc + it.price * (it.quantity : ℚ)) a
      = a + (l.map fun it => it.price * (it.quantity : ℚ)).sum := by
  induction l with
  | nil => intro a; simp
  | cons x xs ih =>
    intro a
    simp [List.foldl_cons, ih]
    ring

/-- The subtotal loop computes the sum of price times quantity over the
items. -/
theorem orderSubtotal_eq_sum (l : List OrderItem) :
    orderSubtotal l = (l.map fun it => it.price * (it.quantity : ℚ)).sum := by
  simpa [orderSubtotal] using foldl_price_qty l 0

/-! ### Seeding lemmas -/

/-- Seeding inserts exactly the four seed documents after the existing
products. -/
theorem seedStore_products_length (s : Store) :
    (seedStore s).products.length = s.products.length + 4 := by
  simp [seedStore, SEED_PRODUCTS, Store.insertProduct]

/-- Rounding zero to two decimals gives zero. -/
theorem round2_zero : round2 0 = 0 := by
  norm_num [round2, rhe]

/-! ### Claim theorems -/

/-- C1: for every submitted order, `create_order` computes the subtotal
as the sum over all items of `price * quantity` (unrounded
intermediate) and returns `total = round(subtotal + effective_shipping,
2)`. -/
theorem c1_total_formula (s : Store) (o : Order) (s' : Store)
    (id : String) (t : ℚ)
    (h : create_order (some s) o = Except.ok (s', id, t)) :
    t = round2 ((o.items.map fun it => it.price * (it.quantity : ℚ)).sum
      + effShipping o.shipping) := by
  simp only [create_order, Store.insertOrder, Except.ok.injEq, Prod.mk.injEq] at h
  obtain ⟨-, -, ht⟩ := h
  rw [← ht, orderSubtotal_eq_sum]

/-- C1 witness: a concrete order with one item priced 3 at quantity 2
and shipping 4 totals `round2 (3*2 + 4) = 10`. -/
theorem c1_total_formula_witness :
    round2 ((([{ product := "p", price := 3, quantity := 2 }] :
        List OrderItem).map fun it => it.price * (it.quantity : ℚ)).sum
      + effShipping (some 4)) = 10 := by
  have h := c1_total_formula { products := [], orders := [], nextId := 0 }
      { items := [{ product := "p", price := 3, quantity := 2 }], shipping := some 4 }
      _ _ _ rfl
  rw [← h]
  norm_num [orderSubtotal, effShipping, round2, rhe]

/-- C3 counterexample: with shipping input `0.006` the persisted
shipping field is `round(0.006, 2) = 0.01`, not `max(0, 0.006) =
0.006`, so the persisted shipping is not `max(0, s)` in general. -/
theorem c3_counterexample :
    ((create_order (some { products := [], orders := [], nextId := 0 })
        { items := [], shipping := some (6/1000) }).toOption.map
      fun r => r.1.orders.map fun d => d.shipping) = some [1/100]
    ∧ max (0 : ℚ) (6/1000) = 6/1000 ∧ ((1 : ℚ)/100) ≠ 6/1000 := by
  refine ⟨?_, by norm_num [max_eq_right], by norm_num⟩
  norm_num [create_order, Store.insertOrder, orderSubtotal, effShipping, round2, rhe,
    max_eq_right, Except.toOption]

/-- C3 amended: the effective shipping used in the total is `max(0, s)`
for a supplied shipping `s` (negative values clamped to `0`, never
rejected) and `0` when shipping is absent; the persisted shipping field
is `round(max(0, s), 2)` (resp. `0`). -/
theorem c3_amended_shipping (s : Store) (o : Order) (s' : Store)
    (id : String) (t : ℚ)
    (h : create_order (some s) o = Except.ok (s', id, t)) :
    ∃ d : OrderDoc, s'.orders = s.orders ++ [d] ∧
      (∀ v, o.shipping = some v → d.shipping = round2 (max 0 v)
        ∧ t = round2 (orderSubtotal o.items + max 0 v)) ∧
      (o.shipping = none → d.shipping = 0
        ∧ t = round2 (orderSubtotal o.items)) := by
  simp only [create_order, Store.insertOrder, Except.ok.injEq, Prod.mk.injEq] at h
  obtain ⟨hs, -, ht⟩ := h
  refine ⟨_, by rw [← hs], ?_, ?_⟩
  · intro v hv
    simp [effShipping, hv, ← ht]
  · intro hv
    simp [effShipping, hv, ← ht, round2_zero]

/-- C3 amended witness: shipping `-10` is clamped to `0`, and the
persisted shipping field is `0`. -/
theorem c3_amended_shipping_witness :
    round2 (effShipping (some (-10))) = round2 (max 0 (-10 : ℚ)) ∧
    round2 (max 0 (-10 : ℚ)) = 0 := by
  constructor
  · obtain ⟨d, hd, hsome, -⟩ :=
      c3_amended_shipping { products := [], orders := [], nextId := 0 }
        { items := [], shipping := some (-10) } _ _ _ rfl
    have hd' : d =
        { items := [], shippingIn := some (-10),
          subtotal := round2 (orderSubtotal []),
          shipping := round2 (effShipping (some (-10))),
          total := round2 (orderSubtotal [] + effShipping (some (-10))) } := by
      simpa using hd.symm
    have h1 := (hsome (-10) rfl).1
    rw [hd'] at h1
    simpa using h1
  · norm_num [round2, rhe]

/-- C5: the subtotal computed by `create_order` is invariant under
permutation of the item sequence. -/
theorem c5_subtotal_perm (l1 l2 : List OrderItem) (h : l1.Perm l2) :
    orderSubtotal l1 = orderSubtotal l2 := by
  rw [orderSubtotal_eq_sum, orderSubtotal_eq_sum]
  exact List.Perm.sum_eq (h.map _)

/-- C5 witness: swapping two concrete items leaves the subtotal
unchanged. -/
theorem c5_subtotal_perm_witness :
    ([{ product := "a", price := 2, quantity := 3 },
      { product := "b", price := 5, quantity := 1 }] : List OrderItem).Perm
      [{ product := "b", price := 5, quantity := 1 },
       { product := "a", price := 2, quantity := 3 }] ∧
    orderSubtotal [{ product := "a", price := 2, quantity := 3 },
        { product := "b", price := 5, quantity := 1 }]
      = orderSubtotal [{ product := "b", price := 5, quantity := 1 },
          { product := "a", price := 2, quantity := 3 }] :=
  ⟨List.Perm.swap _ _ _, c5_subtotal_perm _ _ (List.Perm.swap _ _ _)⟩

/-- C7: when the document store is not configured, both operations fail
with the server-side 500 error and no store state exists to be
written. -/
theorem c7_store_unconfigured (limit : ℕ) (o : Order) :
    list_products none limit = Except.error 500 ∧
    create_order none o = Except.error 500 :=
  ⟨rfl, rfl⟩

/-- C9: an order with an empty item list and no shipping succeeds with
total `0` and the store-assigned identifier. -/
theorem c9_empty_order (s : Store) :
    create_order (some s) { items := [], shipping := none }
      = Except.ok
        ({ s with
           orders := s.orders ++
             [{ items := [], shippingIn := none,
                subtotal := 0, shipping := 0, total := 0 }],
           nextId := s.nextId + 1 },
         oidStr s.nextId, 0) := by
  simp [create_order, Store.insertOrder, orderSubtotal, effShipping, round2_zero]

/-- C10: no clamping is applied to item prices: an order holding an
item with price `-5` and quantity `2` succeeds and both returns and
persists the negative total `-10`. -/
theorem c10_negative_price :
    create_order (some { products := [], orders := [], nextId := 0 })
        { items := [{ product := "p", price := -5, quantity := 2 }], shipping := none }
      = Except.ok
        ({ products := [],
           orders := [{ items := [{ product := "p", price := -5, quantity := 2 }],
                        shippingIn := none, subtotal := -10, shipping := 0,
                        total := -10 }],
           nextId := 1 },
         "0", -10)
    ∧ ((-10 : ℚ) < 0) := by
  refine ⟨?_, by norm_num⟩
  have h0 : oidStr 0 = "0" := rfl
  norm_num [create_order, Store.insertOrder, orderSubtotal, effShipping, round2, rhe, h0]

/-- C2 counterexample: with one item priced `0.006` at quantity 1 and
shipping `0.006`, the persisted record has subtotal `0.01`, shipping
`0.01` and total `0.01`, but `round(0.01 + 0.01, 2) = 0.02`, so the
stored fields violate `total == round(subtotal + shipping, 2)`. -/
theorem c2_counterexample :
    ((create_order (some { products := [], orders := [], nextId := 0 })
        { items := [{ product := "p", price := 6/1000, quantity := 1 }],
          shipping := some (6/1000) }).toOption.map
      fun r => r.1.orders.map fun d => (d.total, round2 (d.subtotal + d.shipping)))
      = some [(1/100, 2/100)] ∧ ((1 : ℚ)/100) ≠ 2/100 := by
  refine ⟨?_, by norm_num⟩
  norm_num [create_order, Store.insertOrder, orderSubtotal, effShipping, round2, rhe,
    max_eq_right, Except.toOption]

/-- C2 amended: every order persisted by `create_order` satisfies
`subtotal == round(sum(price*quantity), 2)`, `shipping ==
round(max(0, s), 2)`, and `total == round(raw_subtotal +
effective_shipping, 2)` where the total is computed from the unrounded
subtotal and the unrounded clamped shipping (not from the stored
rounded fields). -/
theorem c2_amended_invariant (s : Store) (o : Order) (s' : Store)
    (id : String) (t : ℚ)
    (h : create_order (some s) o = Except.ok (s', id, t)) :
    ∃ d : OrderDoc, s'.orders = s.orders ++ [d] ∧
      d.subtotal = round2 ((o.items.map fun it => it.price * (it.quantity : ℚ)).sum) ∧
      d.shipping = round2 (effShipping o.shipping) ∧
      d.total = round2 ((o.items.map fun it => it.price * (it.quantity : ℚ)).sum
        + effShipping o.shipping) ∧
      t = d.total := by
  simp only [create_order, Store.insertOrder, Except.ok.injEq, Prod.mk.injEq] at h
  obtain ⟨hs, -, ht⟩ := h
  refine ⟨_, by rw [← hs], ?_, rfl, ?_, ht.symm⟩
  · rw [orderSubtotal_eq_sum]
  · rw [orderSubtotal_eq_sum]

/-- C2 amended witness: at the concrete counterexample input the stored
subtotal is `round(0.006, 2) = 0.01`. -/
theorem c2_amended_invariant_witness :
    round2 ((([{ product := "p", price := 6/1000, quantity := 1 }] :
        List OrderItem).map fun it => it.price * (it.quantity : ℚ)).sum) = 1/100 := by
  obtain ⟨d, hd, h1, -, -, -⟩ :=
    c2_amended_invariant { products := [], orders := [], nextId := 0 }
      { items := [{ product := "p", price := 6/1000, quantity := 1 }],
        shipping := some (6/1000) } _ _ _ rfl
  have hd' : d =
      { items := [{ product := "p", price := 6/1000, quantity := 1 }],
        shippingIn := some (6/1000),
        subtotal := round2 (orderSubtotal [{ product := "p", price := 6/1000, quantity := 1 }]),
        shipping := round2 (effShipping (some (6/1000))),
        total := round2 (orderSubtotal [{ product := "p", price := 6/1000, quantity := 1 }]
          + effShipping (some (6/1000))) } := by
    simpa using hd.symm
  rw [← h1, hd']
  norm_num [orderSubtotal, round2, rhe]

/-- C4: `list_products` seeds only when the product collection is
empty (a non-empty collection is never re-seeded and the store is left
unchanged); an empty collection receives exactly the 4 seed documents;
and a second sequential call leaves the store unchanged and returns the
same items, so seed data is never duplicated. -/
theorem c4_seed_idempotent (s : Store) (limit : ℕ) (s1 : Store) (out : List Doc)
    (h : list_products (some s) limit = Except.ok (s1, out)) :
    (s.products ≠ [] → s1 = s) ∧
    (s.products = [] → s1.products.length = 4) ∧
    (∀ s2 out2, list_products (some s1) limit = Except.ok (s2, out2) →
      s2 = s1 ∧ out2 = out) := by
  simp only [list_products, Store.productCount, Store.findProducts,
    Except.ok.injEq, Prod.mk.injEq] at h
  obtain ⟨hs, hout⟩ := h
  rw [hs] at hout
  refine ⟨?_, ?_, ?_⟩
  · intro hne
    have hlen : ¬ s.products.length = 0 := by
      simpa [List.length_eq_zero] using hne
    rw [← hs, if_neg hlen]
  · intro hempty
    have hlen : s.products.length = 0 := by simp [hempty]
    rw [← hs, if_pos hlen, seedStore_products_length, hlen]
  · intro s2 out2 h2
    have hlen1 : ¬ s1.products.length = 0 := by
      by_cases h0 : s.products.length = 0
      · rw [← hs, if_pos h0, seedStore_products_length]
        omega
      · rw [← hs, if_neg h0]
        exact h0
    simp only [list_products, Store.productCount, Store.findProducts,
      Except.ok.injEq, Prod.mk.injEq, if_neg hlen1] at h2
    obtain ⟨h2s, h2out⟩ := h2
    exact ⟨h2s.symm, by rw [← h2out, hout]⟩

/-- C4 witness: listing on an empty store seeds exactly the 4 seed
documents. -/
theorem c4_seed_idempotent_witness :
    (seedStore { products := [], orders := [], nextId := 0 }).products.length = 4 := by
  have h := c4_seed_idempotent { products := [], orders := [], nextId := 0 } 20 _ _ rfl
  exact h.2.1 rfl

/-- C6: for a pre-validated limit in `[1, 100]`, `list_products`
returns at most `limit` products, and with `limit = 2` on a store
holding at least 2 products it returns exactly 2 items. -/
theorem c6_limit_bound (s : Store) (limit : ℕ) (s1 : Store) (out : List Doc)
    (h1 : 1 ≤ limit) (h2 : limit ≤ 100)
    (h : list_products (some s) limit = Except.ok (s1, out)) :
    out.length ≤ limit ∧ (limit = 2 → 2 ≤ s.products.length → out.length = 2) := by
  simp only [list_products, Store.productCount, Store.findProducts,
    Except.ok.injEq, Prod.mk.injEq] at h
  obtain ⟨hs, hout⟩ := h
  constructor
  · rw [← hout]
    simp [List.length_map, List.length_take]
  · intro hl2 hge
    have hne : ¬ s.products.length = 0 := by omega
    rw [← hout, if_neg hne]
    simp [List.length_map, List.length_take, hl2]
    omega

/-- C6 witness: a store with 3 products and limit 2 yields exactly 2
items. -/
theorem c6_limit_bound_witness :
    ((1 : ℕ) ≤ 2 ∧ (2 : ℕ) ≤ 100) ∧
    ([serialize_doc [("title", Value.vStr "a")],
      serialize_doc [("title", Value.vStr "b")]] : List Doc).length ≤ 2 ∧
    ([serialize_doc [("title", Value.vStr "a")],
      serialize_doc [("title", Value.vStr "b")]] : List Doc).length = 2 := by
  have h := c6_limit_bound
      { products := [[("title", Value.vStr "a")], [("title", Value.vStr "b")],
          [("title", Value.vStr "c")]], orders := [], nextId := 0 }
      2
      { products := [[("title", Value.vStr "a")], [("title", Value.vStr "b")],
          [("title", Value.vStr "c")]], orders := [], nextId := 0 }
      [serialize_doc [("title", Value.vStr "a")],
       serialize_doc [("title", Value.vStr "b")]]
      (by norm_num) (by norm_num) rfl
  exact ⟨⟨by norm_num, by norm_num⟩, h.1, h.2 rfl (by norm_num)⟩

/-- C8: every document returned by `list_products` is the
normalization of a stored document, and the normalization of any
document holding a store-assigned `_id` removes `_id`, adds `id` with
its stringified value, and coerces a present non-null numeric `rating`
to floating point. -/
theorem c8_normalized_output (s : Store) (limit : ℕ) (s1 : Store) (out : List Doc)
    (h : list_products (some s) limit = Except.ok (s1, out)) :
    (∀ doc ∈ out, ∃ d ∈ s1.products, doc = serialize_doc d) ∧
    (∀ (d : Doc) (n : ℕ), d.lookup "_id" = some (.vOid n) →
      (serialize_doc d).lookup "_id" = none ∧
      (serialize_doc d).lookup "id" = some (.vStr (oidStr n)) ∧
      (∀ v, d.lookup "rating" = some v → v ≠ .vNull → v.isNumeric = true →
        ∃ q : ℚ, (serialize_doc d).lookup "rating" = some (.vFloat q) ∧
          Value.vFloat q = v.pyFloat)) := by
  constructor
  · simp only [list_products, Store.productCount, Store.findProducts,
      Except.ok.injEq, Prod.mk.injEq] at h
    obtain ⟨hs, hout⟩ := h
    rw [hs] at hout
    intro doc hdoc
    rw [← hout] at hdoc
    obtain ⟨d, hd, rfl⟩ := List.mem_map.mp hdoc
    exact ⟨d, List.take_subset _ _ hd, rfl⟩
  · intro d n hid
    have hrat0 : ((d.erase "_id").insert "id" (.vStr (Value.vOid n).pyStr)).lookup "rating"
        = d.lookup "rating" := by
      rw [lookup_insert, lookup_erase]
      rw [if_neg (by decide : ¬ ("rating" : String) = "id"),
        if_neg (by decide : ¬ ("rating" : String) = "_id")]
    rcases hr : d.lookup "rating" with _ | v
    · have hser : serialize_doc d
          = (d.erase "_id").insert "id" (.vStr (Value.vOid n).pyStr) := by
        simp only [serialize_doc, hid]
        rw [hrat0, hr]
      refine ⟨?_, ?_, ?_⟩
      · rw [hser, lookup_insert, if_neg (by decide), lookup_erase, if_pos rfl]
      · rw [hser, lookup_insert, if_pos rfl]
        rfl
      · intro v hv
        simp at hv
    · by_cases hnull : v = Value.vNull
      · subst hnull
        have hser : serialize_doc d
            = (d.erase "_id").insert "id" (.vStr (Value.vOid n).pyStr) := by
          simp only [serialize_doc, hid]
          rw [hrat0, hr]
          simp
        refine ⟨?_, ?_, ?_⟩
        · rw [hser, lookup_insert, if_neg (by decide), lookup_erase, if_pos rfl]
        · rw [hser, lookup_insert, if_pos rfl]
          rfl
        · intro w hw hwnull _
          injection hw with hw'
          exact absurd hw'.symm hwnull
      · have hser : serialize_doc d
            = ((d.erase "_id").insert "id" (.vStr (Value.vOid n).pyStr)).insert
                "rating" v.pyFloat := by
          simp only [serialize_doc, hid]
          rw [hrat0, hr]
          simp [hnull]
        refine ⟨?_, ?_, ?_⟩
        · rw [hser, lookup_insert, if_neg (by decide), lookup_insert,
            if_neg (by decide), lookup_erase, if_pos rfl]
        · rw [hser, lookup_insert, if_neg (by decide), lookup_insert, if_pos rfl]
          rfl
        · intro w hw hwnull hnum
          injection hw with hw'
          subst hw'
          rw [hser, lookup_insert, if_pos rfl]
          cases v with
          | vNull => exact absurd rfl hwnull
          | vStr a => simp [Value.isNumeric] at hnum
          | vInt m => exact ⟨(m : ℚ), rfl, rfl⟩
          | vFloat q => exact ⟨q, rfl, rfl⟩
          | vBool b => exact ⟨if b then 1 else 0, rfl, rfl⟩
          | vOid k => simp [Value.isNumeric] at hnum

/-- C8 witness: normalizing a stored document with `_id = 7` and an
integer rating removes `_id`, sets `id = "7"`, and makes the rating a
float. -/
theorem c8_normalized_output_witness :
    (serialize_doc [("_id", Value.vOid 7), ("rating", Value.vInt 4)]).lookup "_id"
      = none ∧
    (serialize_doc [("_id", Value.vOid 7), ("rating", Value.vInt 4)]).lookup "id"
      = some (Value.vStr (oidStr 7)) ∧
    ∃ q : ℚ, (serialize_doc [("_id", Value.vOid 7), ("rating", Value.vInt 4)]).lookup
      "rating" = some (Value.vFloat q) := by
  have h := (c8_normalized_output
      { products := [[("_id", Value.vOid 7), ("rating", Value.vInt 4)]],
        orders := [], nextId := 8 } 20 _ _ rfl).2
      [("_id", Value.vOid 7), ("rating", Value.vInt 4)] 7 (by decide)
  obtain ⟨q, hq, -⟩ := h.2.2 (Value.vInt 4) (by decide) (by decide) (by decide)
  exact ⟨h.1, h.2.1, q, hq⟩

end Storefront
